import Mathlib

/-!
# Verification of the LuSent lead-research pipeline (`src/app.py`)

Shallow embedding of the core functions of `app.py`:
`extract_emails`, `scrape_website`, `generate_pitch`, `create_mailto_link`
and the per-token main loop, with network I/O (`requests.get`,
`requests.post`) and Python library behaviour (`re.findall`,
`list(set(...))`, `BeautifulSoup.get_text`, `str.title`, `urlencode`)
made explicit.
-/

/-- Characters matched by `[a-zA-Z0-9._%+-]` (the local part of the
email regex in `extract_emails`). -/
def isLocalChar (c : Char) : Bool :=
  c.isAlpha || c.isDigit || c == '.' || c == '_' || c == '%' || c == '+' || c == '-'

/-- Characters matched by `[a-zA-Z0-9.-]` (the domain part of the
email regex). -/
def isDomainChar (c : Char) : Bool :=
  c.isAlpha || c.isDigit || c == '.' || c == '-'

/-- One attempt of the regex `[a-zA-Z0-9._%+-]+@[a-zA-Z0-9.-]+\.[a-zA-Z]{2,}`
anchored at the head of `cs`, with Python back-tracking semantics:
`+` is greedy, so the local run is maximal (it can never contain `@`),
the domain run backtracks to the largest split whose next char is `.`
followed by at least two letters, and the trailing letter run is maximal.
Returns the matched characters and the remaining input. -/
def tryMatch (cs : List Char) : Option (List Char × List Char) :=
  let loc := cs.takeWhile isLocalChar
  if loc.isEmpty then none
  else
    match cs.drop loc.length with
    | '@' :: rest =>
      let m := (rest.takeWhile isDomainChar).length
      match (List.range m).reverse.find? (fun j =>
          decide (1 ≤ j) &&
          (rest.getD j ' ' == '.') &&
          (rest.getD (j+1) ' ').isAlpha &&
          (rest.getD (j+2) ' ').isAlpha) with
      | some j =>
        let tld := ((rest.drop (j+1)).takeWhile Char.isAlpha)
        some (loc ++ '@' :: (rest.take (j+1) ++ tld), rest.drop (j+1+tld.length))
      | none => none
    | _ => none

/-- The scan of `re.findall`: try a match at every position from left to
right; on success emit the match and resume after it, otherwise advance
one character.  Fuel bounds the number of steps (one unit per position). -/
def findAllGo : Nat → List Char → List String
  | 0, _ => []
  | _, [] => []
  | fuel+1, c :: cs =>
    match tryMatch (c :: cs) with
    | some (m, rest) => String.mk m :: findAllGo fuel rest
    | none => findAllGo fuel cs

/-- `re.findall(email_pattern, text)`: the email matches of `text` in scan
order. -/
def findallEmails (s : String) : List String :=
  findAllGo s.length s.toList

/-- A function standing for Python's `list(set(...))` on strings: the order
of the returned list is unspecified by the source (CPython hash ordering),
so the embedding takes the enumeration as a parameter.  `validSetEnum`
states exactly what `list(set(l))` guarantees: no duplicates and the same
membership as `l`. -/
def validSetEnum (so : List String → List String) : Prop :=
  ∀ l : List String, (so l).Nodup ∧ ∀ x : String, x ∈ so l ↔ x ∈ l

/-- `extract_emails(text)` from `app.py`: `list(set(re.findall(pattern, text)))`,
with the set enumeration `so` passed explicitly. -/
def extract_emails (so : List String → List String) (text : String) : List String :=
  so (findallEmails text)

/-- One admissible enumeration of `set(l)`: keep the first occurrence of
each element. -/
def pySetList : List String → List String
  | [] => []
  | x :: xs => x :: (pySetList xs).filter (fun y => !(y == x))

/-- Another admissible enumeration of `set(l)`: the first-occurrence
deduplication, reversed. -/
def pySetListRev (l : List String) : List String :=
  (pySetList l).reverse

/-- Python `str.startswith(pre)` (character-level prefix test). -/
def pyStartsWith (s pre : String) : Bool :=
  pre.toList.isPrefixOf s.toList

/-- Python `needle in hay` (substring test). -/
def pyContains (hay needle : String) : Bool :=
  hay.toList.tails.any (fun t => needle.toList.isPrefixOf t)

/-- Python string slicing `s[:n]` (first `n` characters). -/
def pyTrunc (s : String) (n : Nat) : String :=
  String.mk (s.toList.take n)

/-- Helper for Python `str.title()`: `prevCased` records whether the
previous character was a cased (ASCII alphabetic) character. -/
def pyTitleGo : Bool → List Char → List Char
  | _, [] => []
  | prevCased, c :: cs =>
    if c.isAlpha then
      (if prevCased then c.toLower else c.toUpper) :: pyTitleGo true cs
    else
      c :: pyTitleGo false cs

/-- Python `str.title()` restricted to ASCII: a letter not preceded by a
letter is uppercased, a letter preceded by a letter is lowercased. -/
def pyTitle (s : String) : String :=
  String.mk (pyTitleGo false s.toList)

/-- Splits a character stream into the text segments lying between HTML
tags: outside a tag, characters accumulate into the current segment and
`<` closes it and enters tag state; inside a tag everything up to `>` is
discarded.  Models how `BeautifulSoup` separates text nodes from markup
for plain tag soup (no comments, entities or CDATA). -/
def segsGo : Bool → List Char → List Char → List String
  | inTag, [], acc => if inTag then [] else [String.mk acc.reverse]
  | inTag, c :: rest, acc =>
    if inTag then
      (if c == '>' then segsGo false rest [] else segsGo true rest acc)
    else
      (if c == '<' then String.mk acc.reverse :: segsGo true rest [] else segsGo false rest (c :: acc))

/-- Python `separator.join(list)`. -/
def pyJoin (sep : String) : List String → String
  | [] => ""
  | [s] => s
  | s :: rest => s ++ sep ++ pyJoin sep rest

/-- Python `str.strip()` (for the ASCII whitespace that occurs here). -/
def pyStrip (s : String) : String :=
  String.mk (((s.toList.dropWhile Char.isWhitespace).reverse.dropWhile Char.isWhitespace).reverse)

/-- `soup.get_text(separator=' ', strip=True)`: each text node is
whitespace-stripped, empty nodes are dropped, and the rest are joined
with single spaces.  Tag markup is removed but no element is filtered
by name (nav/header/footer/script/style text is all retained). -/
def getText (s : String) : String :=
  pyJoin " " (((segsGo false s.toList []).map pyStrip).filter (fun t => !(t == "")))

/-- Outcome of `requests.get(url, headers=..., timeout=10)`: either a
response (status code and body) or a raised exception (timeout, DNS
failure, connection refused, malformed response, ...) carrying `str(e)`. -/
inductive FetchResult where
  | ok (status : Nat) (body : String)
  | err (msg : String)
deriving DecidableEq

/-- The dict returned by `scrape_website` (fields `text`, `emails`,
`contact_email`, `source`). -/
structure ScrapeData where
  text : String
  emails : String
  contact_email : String
  source : String
deriving DecidableEq

/-- The URL actually fetched for a token on the URL path of
`scrape_website`: `'https://' + url` is prepended unless the token
already starts with `'http'`. -/
def urlOf (url_or_name : String) : String :=
  if pyStartsWith url_or_name "http" then url_or_name else "https://" ++ url_or_name

/-- `scrape_website(url_or_name)` from `app.py`, with the network call
passed in as `fetch` and the `list(set(...))` enumeration as `so`.
The Python `try` block converts every raised exception into the
`Error_Fallback` dict; the embedding makes this the `FetchResult.err`
branch, so the function is total (never raises to its caller). -/
def scrape_website (so : List String → List String) (fetch : String → FetchResult)
    (url_or_name : String) : ScrapeData :=
  if !(url_or_name.toList.contains '.') || url_or_name.toList.contains ' ' then
    { text := "User provided Company Name: '" ++ url_or_name ++
        "'. No URL provided. Use your internal knowledge."
      emails := ""
      contact_email := "Not Found"
      source := "Name_Only" }
  else
    let url := urlOf url_or_name
    match fetch url with
    | .err e =>
      { text := "Could not access " ++ url ++ ". Error: " ++ e
        emails := ""
        contact_email := "Not Found"
        source := "Error_Fallback" }
    | .ok status body =>
      if status = 403 ∨ status = 401 ∨ status = 503 then
        { text := "Website " ++ url ++ " is protected. Use internal knowledge for this domain."
          emails := ""
          contact_email := "Not Found"
          source := "Protected_Site" }
      else
        let text := pyTrunc (getText body) 4000
        let emails := extract_emails so text
        { text := text
          emails := pyJoin ", " emails
          contact_email := emails.headD "Not Found"
          source := "Scraped" }

/-- The "Smart Name Extraction" of the main loop: tokens containing
`"http"` are stripped of scheme and `www.`, cut at the first `.`, and
title-cased; all other tokens are used verbatim as the company name. -/
def companyNameOf (item : String) : String :=
  if pyContains item "http" then
    pyTitle (((((item.replace "https://" "").replace "http://" "").replace "www." "").splitOn ".").headD "")
  else item

/-- Outcome of one `requests.post` to a generation endpoint: a raised
exception, or a response with status code, raw body text, and the result
of `response.json()['candidates'][0]['content']['parts'][0]['text']`
(`Except.error` when that chain of lookups raises). -/
inductive ApiResponse where
  | exn (msg : String)
  | resp (status : Nat) (body : String) (candidate : Except String String)

/-- The prompt f-string built by `generate_pitch` (verbatim, including the
triple-quoted indentation). -/
def buildPrompt (company_name : String) (data : ScrapeData) : String :=
  "\n    ACT AS: A Senior B2B Sales Development Rep for 'LuSent AI Labs'.\n    TARGET: "
  ++ company_name ++
  "\n    CONTEXT: We sell AI Automation Services (Lead Gen, Chatbots, Workflow Automation).\n    \n    SOURCE DATA: \n    "
  ++ data.text ++
  "\n    \n    INSTRUCTIONS:\n    1. Write a hyper-personalized cold email to the Founder.\n    2. If Source Data is real, reference specific details from it.\n    3. If Source Data is generic or missing, use your knowledge about "
  ++ company_name ++
  ".\n    4. Keep it under 150 words. Punchy. Professional.\n    "

/-- `generate_pitch(company_name, company_data)` from `app.py`: posts the
prompt to the `gemini-1.5-flash` endpoint (`flash`); on a non-200 status
retries the `gemini-pro` endpoint (`pro`); on a second non-200 returns
the `"Error from Google: ..."` string; any raised exception (including a
malformed 200 body) returns the `"Connection Error: ..."` string. -/
def generate_pitch (flash pro : String → ApiResponse) (company_name : String)
    (company_data : ScrapeData) : String :=
  let prompt := buildPrompt company_name company_data
  match flash prompt with
  | .exn m => "Connection Error: " ++ m
  | .resp status _ candidate =>
    if status = 200 then
      match candidate with
      | .ok t => t
      | .error m => "Connection Error: " ++ m
    else
      match pro prompt with
      | .exn m => "Connection Error: " ++ m
      | .resp status2 body2 candidate2 =>
        if status2 = 200 then
          match candidate2 with
          | .ok t => t
          | .error m => "Connection Error: " ++ m
        else
          "Error from Google: " ++ toString status2 ++ " - " ++ body2

/-- `true` exactly when the attempt came back with status 200 and a
well-formed candidate text (the only branch of `generate_pitch` that
returns backend text). -/
def isApiSuccess : ApiResponse → Bool
  | .resp 200 _ (.ok _) => true
  | _ => false

/-- UTF-8 bytes of a code point, as `Nat`s. -/
def utf8Bytes (n : Nat) : List Nat :=
  if n < 0x80 then [n]
  else if n < 0x800 then [0xC0 + n / 64, 0x80 + n % 64]
  else if n < 0x10000 then [0xE0 + n / 4096, 0x80 + (n / 64) % 64, 0x80 + n % 64]
  else [0xF0 + n / 262144, 0x80 + (n / 4096) % 64, 0x80 + (n / 64) % 64, 0x80 + n % 64]

/-- Uppercase hex digit. -/
def hexDigit (n : Nat) : Char :=
  "0123456789ABCDEF".toList.getD n '0'

/-- `urllib.parse.quote_plus`: letters, digits and `_.-~` kept, space
becomes `+`, everything else percent-encoded per UTF-8 byte. -/
def pyQuotePlus (s : String) : String :=
  String.join (s.toList.map fun c =>
    if c.isAlphanum || c == '_' || c == '.' || c == '-' || c == '~' then
      String.singleton c
    else if c == ' ' then "+"
    else
      String.join ((utf8Bytes c.toNat).map fun b =>
        "%" ++ String.singleton (hexDigit (b / 16)) ++ String.singleton (hexDigit (b % 16))))

/-- `urllib.parse.urlencode` on an ordered list of key/value pairs. -/
def pyUrlencode (ps : List (String × String)) : String :=
  String.intercalate "&" (ps.map fun p => pyQuotePlus p.1 ++ "=" ++ pyQuotePlus p.2)

/-- `create_mailto_link(email, subject, body)` from `app.py`. -/
def create_mailto_link (email subject body : String) : String :=
  let email := if email = "Not Found" then "" else email
  "https://mail.google.com/mail/u/0/?" ++
    pyUrlencode [("view", "cm"), ("fs", "1"), ("to", email), ("su", subject), ("body", body)]

/-- One row appended to `results` by the main loop. -/
structure LeadRecord where
  company : String
  input : String
  contactEmail : String
  pitch : String
  emailLink : String
  status : String
deriving DecidableEq

/-- One iteration of the main loop (`for i, item in enumerate(...)`):
scrape, extract the company name, generate the pitch, build the mailto
link, and append the record with the hard-coded `Status: "Success"`. -/
def processItem (so : List String → List String) (fetch : String → FetchResult)
    (flash pro : String → ApiResponse) (item : String) : LeadRecord :=
  let data := scrape_website so fetch item
  let company_name := companyNameOf item
  let pitch := generate_pitch flash pro company_name data
  let subject := "AI Automation Idea for " ++ company_name
  let email_link := create_mailto_link data.contact_email subject pitch
  { company := company_name
    input := item
    contactEmail := data.contact_email
    pitch := pitch
    emailLink := email_link
    status := "Success" }

/-- The whole batch loop: one record per input token, in input order. -/
def processBatch (so : List String → List String) (fetch : String → FetchResult)
    (flash pro : String → ApiResponse) (items : List String) : List LeadRecord :=
  items.map (processItem so fetch flash pro)

/-- Fixture: a fetch that always times out. -/
def fetchTimeout : String → FetchResult := fun _ => .err "timeout"

/-- Fixture: a fetch that always returns a 200 page with one contact email. -/
def fetchOkContact : String → FetchResult := fun _ => .ok 200 "<p>Contact hi@example.com</p>"

/-- Fixture: a fetch that always returns a 404 page. -/
def fetch404 : String → FetchResult := fun _ => .ok 404 "<p>page not found</p>"

/-- Fixture: a 200 page whose body contains a `<nav>` element. -/
def fetchNav : String → FetchResult := fun _ => .ok 200 "<nav>Home</nav><p>Contact us at hi@example.com</p>"

/-- Fixture: a 200 page with two distinct emails. -/
def fetchTwoEmails : String → FetchResult := fun _ => .ok 200 "<p>Reach a@x.com or b@y.org</p>"

/-- Fixture: a fetch that is always refused with 403. -/
def fetchBlocked : String → FetchResult := fun _ => .ok 403 "denied"

/-- Fixture: a generation backend whose requests always raise. -/
def apiDown : String → ApiResponse := fun _ => .exn "no net"

/-- Fixture: a generation backend that always answers 500 with body `quota`. -/
def apiQuota : String → ApiResponse := fun _ => .resp 500 "quota" (.error "KeyError: candidates")

/-- Fixture: a 200 page consisting of a single `<nav>` element. -/
def fetchNavOnly : String → FetchResult := fun _ => .ok 200 "<nav>Home</nav>"

set_option maxRecDepth 200000

theorem mem_pySetList {x : String} : ∀ {l : List String}, x ∈ pySetList l ↔ x ∈ l := by
  intro l
  induction l with
  | nil => simp [pySetList]
  | cons a as ih =>
    simp only [pySetList, List.mem_cons, List.mem_filter, ih, Bool.not_eq_true']
    constructor
    · rintro (rfl | ⟨hx, _⟩)
      · exact Or.inl rfl
      · exact Or.inr hx
    · rintro (rfl | hx)
      · exact Or.inl rfl
      · by_cases hxa : x = a
        · exact Or.inl hxa
        · exact Or.inr ⟨hx, by simpa using hxa⟩

theorem nodup_pySetList : ∀ l : List String, (pySetList l).Nodup := by
  intro l
  induction l with
  | nil => simp [pySetList]
  | cons a as ih =>
    refine List.nodup_cons.mpr ⟨?_, ih.filter _⟩
    intro hmem
    have := (List.mem_filter.mp hmem).2
    simp at this

theorem pySetList_valid : validSetEnum pySetList :=
  fun l => ⟨nodup_pySetList l, fun _ => mem_pySetList⟩

theorem pySetListRev_valid : validSetEnum pySetListRev :=
  fun l => ⟨List.nodup_reverse.mpr (nodup_pySetList l),
    fun _ => (List.mem_reverse).trans mem_pySetList⟩

theorem string_append_ne_empty (a b : String) (h : a ≠ "") : a ++ b ≠ "" := by
  intro hc
  apply h
  have hd := congrArg String.data hc
  rw [String.data_append] at hd
  have hnil : a.data = [] := (List.append_eq_nil.mp hd).1
  obtain ⟨d⟩ := a
  simp_all

/-- C1: for every token on the URL path, any raised fetch exception
(timeout, DNS failure, connection refused, malformed response) is
converted by `scrape_website` into the `Error_Fallback` research dict:
a non-empty synthetic `text`, empty `emails`, contact sentinel
`"Not Found"`, and source `"Error_Fallback"` — never an exception to the
caller (the embedding is total by construction, with every exception of
the Python `try` block appearing as a `FetchResult.err`). -/
theorem scrape_website_fetch_error_total
    (so : List String → List String) (fetch : String → FetchResult) (token e : String)
    (h1 : token.toList.contains '.' = true)
    (h2 : token.toList.contains ' ' = false)
    (hf : fetch (urlOf token) = .err e) :
    scrape_website so fetch token =
      { text := "Could not access " ++ urlOf token ++ ". Error: " ++ e
        emails := ""
        contact_email := "Not Found"
        source := "Error_Fallback" } ∧
    (scrape_website so fetch token).text ≠ "" := by
  have hrec : scrape_website so fetch token =
      { text := "Could not access " ++ urlOf token ++ ". Error: " ++ e
        emails := ""
        contact_email := "Not Found"
        source := "Error_Fallback" } := by
    simp [scrape_website, hf]
    exact ⟨by simpa using h1, by simpa using h2⟩
  refine ⟨hrec, ?_⟩
  rw [hrec]
  exact string_append_ne_empty ("Could not access " ++ urlOf token ++ ". Error: ") e
    (string_append_ne_empty ("Could not access " ++ urlOf token) ". Error: "
      (string_append_ne_empty "Could not access " (urlOf token) (by decide)))

/-- Witness for C1 at token `"down.example"` with a timing-out fetch. -/
theorem scrape_website_fetch_error_total_witness :
    scrape_website pySetList fetchTimeout "down.example" =
      { text := "Could not access " ++ urlOf "down.example" ++ ". Error: " ++ "timeout"
        emails := ""
        contact_email := "Not Found"
        source := "Error_Fallback" } ∧
    (scrape_website pySetList fetchTimeout "down.example").text ≠ "" :=
  scrape_website_fetch_error_total pySetList fetchTimeout "down.example" "timeout"
    (by decide) (by decide) rfl

/-- C3: the batch loop yields exactly one `LeadRecord` per input token,
in the original input order (the `Input` field of the i-th record is the
i-th token), for every fetch and generation behaviour — including ones
that fail on every token — so a per-token failure never aborts or skips
any other token. -/
theorem processBatch_length_and_order
    (so : List String → List String) (fetch : String → FetchResult)
    (flash pro : String → ApiResponse) (items : List String) :
    (processBatch so fetch flash pro items).length = items.length ∧
    (processBatch so fetch flash pro items).map LeadRecord.input = items := by
  constructor
  · simp [processBatch]
  · simp only [processBatch, List.map_map]
    have hid : (LeadRecord.input ∘ processItem so fetch flash pro) = fun it => it :=
      funext fun it => rfl
    rw [hid]
    exact List.map_id items

/-- C6 (amended): the `Status` field of every produced lead record is the
hard-coded string `"Success"`, whatever source path (scraped, blocked,
unreachable, name-only) the research took. -/
theorem leadRecord_status_always_success
    (so : List String → List String) (fetch : String → FetchResult)
    (flash pro : String → ApiResponse) (items : List String) :
    ∀ r ∈ processBatch so fetch flash pro items, r.status = "Success" := by
  intro r hr
  simp only [processBatch, List.mem_map] at hr
  obtain ⟨it, _, rfl⟩ := hr
  rfl

/-- Witness for the amended C6: the record of a timing-out token. -/
theorem leadRecord_status_always_success_witness :
    (processItem pySetList fetchTimeout apiDown apiDown "down.example").status = "Success" :=
  leadRecord_status_always_success pySetList fetchTimeout apiDown apiDown ["down.example"] _
    (by simp [processBatch])

/-- Counterexample to C6 as stated: a token whose fetch times out — a
fallback (`Error_Fallback`) path — still gets status `"Success"`, the
same status as a successfully scraped token; there is no
`SUCCESS_INFERRED` distinction anywhere in the output. -/
theorem leadRecord_status_cex :
    (processItem pySetList fetchTimeout apiDown apiDown "down.example").status = "Success" ∧
    (scrape_website pySetList fetchTimeout "down.example").source = "Error_Fallback" ∧
    (processItem pySetList fetchOkContact apiDown apiDown "ok.example").status =
      (processItem pySetList fetchTimeout apiDown apiDown "down.example").status ∧
    (scrape_website pySetList fetchOkContact "ok.example").source = "Scraped" :=
  ⟨rfl, by decide, rfl, by decide⟩

theorem isPrefixOf_append_self (l t : List Char) : l.isPrefixOf (l ++ t) = true := by
  induction l with
  | nil => simp
  | cons a as ih => simpa [List.isPrefixOf_cons₂] using ih

/-- C4 (amended): on the URL path, the fetch outcome is classified
`Protected_Site` exactly when the HTTP status is in {401, 403, 503};
a raised transport error is classified `Error_Fallback`; and every
other status — 2xx or not (404, 500, ...) — is treated as scrapable
content (source `Scraped`). -/
theorem scrape_website_status_classification
    (so : List String → List String) (fetch : String → FetchResult) (token : String)
    (h1 : token.toList.contains '.' = true)
    (h2 : token.toList.contains ' ' = false) :
    (∀ s b, fetch (urlOf token) = .ok s b →
      (((s = 401 ∨ s = 403 ∨ s = 503) ↔ (scrape_website so fetch token).source = "Protected_Site") ∧
       (¬(s = 401 ∨ s = 403 ∨ s = 503) → (scrape_website so fetch token).source = "Scraped"))) ∧
    (∀ e, fetch (urlOf token) = .err e → (scrape_website so fetch token).source = "Error_Fallback") := by
  have h1' : '.' ∈ token.data := by simpa using h1
  have h2' : ' ' ∉ token.data := by simpa using h2
  constructor
  · intro s b hf
    by_cases hs : s = 401 ∨ s = 403 ∨ s = 503
    · have hs' : s = 403 ∨ s = 401 ∨ s = 503 := by tauto
      have hsrc : (scrape_website so fetch token).source = "Protected_Site" := by
        simp [scrape_website, hf, hs', h1', h2']
      exact ⟨⟨fun _ => hsrc, fun _ => hs⟩, fun hns => absurd hs hns⟩
    · have hs' : ¬(s = 403 ∨ s = 401 ∨ s = 503) := by tauto
      have hsrc : (scrape_website so fetch token).source = "Scraped" := by
        simp [scrape_website, hf, hs', h1', h2']
      refine ⟨⟨fun hmem => absurd hmem hs, fun hp => ?_⟩, fun _ => hsrc⟩
      exact absurd (hsrc.symm.trans hp) (by decide)
  · intro e hf
    simp [scrape_website, hf, h1', h2']

/-- Witness for the amended C4: a 403 is `Protected_Site`, a 404 is
`Scraped`. -/
theorem scrape_website_status_classification_witness :
    (scrape_website pySetList fetchBlocked "ex.com").source = "Protected_Site" ∧
    (scrape_website pySetList fetch404 "ex.com").source = "Scraped" :=
  ⟨((scrape_website_status_classification pySetList fetchBlocked "ex.com"
      (by decide) (by decide)).1 403 "denied" rfl).1.mp (by tauto),
   ((scrape_website_status_classification pySetList fetch404 "ex.com"
      (by decide) (by decide)).1 404 "<p>page not found</p>" rfl).2 (by decide)⟩

/-- Counterexample to C4 as stated: a 404 response — a non-2xx status
outside {401, 403, 503} — is not classified `Unreachable`
(`Error_Fallback`): its body is parsed and scraped as content, with
source `"Scraped"`. -/
theorem scrape_website_404_scraped_cex :
    (scrape_website pySetList fetch404 "ex.com").source = "Scraped" ∧
    (scrape_website pySetList fetch404 "ex.com").text = "page not found" ∧
    ("Scraped" : String) ≠ "Error_Fallback" ∧
    ("Scraped" : String) ≠ "Protected_Site" :=
  ⟨by decide, by decide, by decide, by decide⟩

/-- C5 (amended): for a token with no `.` and no space, no URL is
guessed and nothing is fetched: `scrape_website` returns the `Name_Only`
dict embedding the raw token, and (when the token does not contain the
substring `"http"`) the main loop's company name is the token unchanged,
not title-cased. -/
theorem scrape_website_bare_name
    (so : List String → List String) (fetch : String → FetchResult) (token : String)
    (h1 : token.toList.contains '.' = false)
    (h2 : token.toList.contains ' ' = false) :
    scrape_website so fetch token =
      { text := "User provided Company Name: '" ++ token ++
          "'. No URL provided. Use your internal knowledge."
        emails := ""
        contact_email := "Not Found"
        source := "Name_Only" } ∧
    (pyContains token "http" = false → companyNameOf token = token) := by
  constructor
  · have h1' : '.' ∉ token.data := by simpa using h1
    simp [scrape_website, h1']
  · intro hh
    simp [companyNameOf, hh]

/-- Witness for the amended C5 at token `"globex"` (the fetch oracle
would happily serve content for any URL, including the would-be guess
`https://www.globex.com`, yet the result is `Name_Only`). -/
theorem scrape_website_bare_name_witness :
    scrape_website pySetList fetchOkContact "globex" =
      { text := "User provided Company Name: '" ++ "globex" ++
          "'. No URL provided. Use your internal knowledge."
        emails := ""
        contact_email := "Not Found"
        source := "Name_Only" } ∧
    companyNameOf "globex" = "globex" :=
  ⟨(scrape_website_bare_name pySetList fetchOkContact "globex" (by decide) (by decide)).1,
   (scrape_website_bare_name pySetList fetchOkContact "globex" (by decide) (by decide)).2
     (by decide)⟩

/-- Counterexample to C5 as stated: for the bare token `"globex"` the
code fetches nothing (`Name_Only`, even though the fetcher would answer
every URL) and the display name stays `"globex"`, not the title-cased
`"Globex"` the claim requires. -/
theorem scrape_website_no_url_guess_cex :
    (scrape_website pySetList fetchOkContact "globex").source = "Name_Only" ∧
    (scrape_website pySetList fetchOkContact "globex").text =
      "User provided Company Name: 'globex'. No URL provided. Use your internal knowledge." ∧
    companyNameOf "globex" = "globex" ∧
    pyTitle "globex" = "Globex" ∧
    ("globex" : String) ≠ "Globex" :=
  ⟨by decide, by decide, by decide, by decide, by decide⟩

/-- C9 (amended): the fetched URL always begins with the four characters
`"http"`, and begins with the full scheme `"https://"` whenever the token
does not already start with `"http"` (a token like `"httponly.net"` is
fetched verbatim, without a scheme); for tokens not containing `"http"`
the display name is the raw token unchanged — hence non-empty exactly
when the token is — and not necessarily title-cased. -/
theorem urlOf_weak_invariant (token : String) :
    pyStartsWith (urlOf token) "http" = true ∧
    (pyStartsWith token "http" = false → pyStartsWith (urlOf token) "https://" = true) ∧
    (pyContains token "http" = false → companyNameOf token = token) ∧
    (token ≠ "" → pyContains token "http" = false → companyNameOf token ≠ "") := by
  by_cases h : pyStartsWith token "http" = true
  · refine ⟨by simpa [urlOf, h] using h, fun hf => absurd h (by simp [hf]),
      fun hc => by simp [companyNameOf, hc], fun hne hc => ?_⟩
    simpa [companyNameOf, hc] using hne
  · have h' : pyStartsWith token "http" = false := by simpa using h
    have hurl : urlOf token = "https://" ++ token := by simp [urlOf, h']
    refine ⟨?_, fun _ => ?_, fun hc => by simp [companyNameOf, hc], fun hne hc => ?_⟩
    · rw [hurl]
      show "http".toList.isPrefixOf ("https://" ++ token).toList = true
      have e0 : ("https://" ++ token).toList = "https://".toList ++ token.toList :=
        String.data_append _ _
      have e1 : "https://".toList ++ token.toList =
          "http".toList ++ (['s', ':', '/', '/'] ++ token.toList) := rfl
      rw [e0, e1]
      exact isPrefixOf_append_self _ _
    · rw [hurl]
      show "https://".toList.isPrefixOf ("https://" ++ token).toList = true
      have e0 : ("https://" ++ token).toList = "https://".toList ++ token.toList :=
        String.data_append _ _
      rw [e0]
      exact isPrefixOf_append_self _ _
    · simpa [companyNameOf, hc] using hne

/-- Witness for the amended C9 at token `"acme.org"`. -/
theorem urlOf_weak_invariant_witness :
    pyStartsWith (urlOf "acme.org") "http" = true ∧
    pyStartsWith (urlOf "acme.org") "https://" = true ∧
    companyNameOf "acme.org" = "acme.org" ∧
    companyNameOf "acme.org" ≠ "" :=
  ⟨(urlOf_weak_invariant "acme.org").1,
   (urlOf_weak_invariant "acme.org").2.1 (by decide),
   (urlOf_weak_invariant "acme.org").2.2.1 (by decide),
   (urlOf_weak_invariant "acme.org").2.2.2 (by decide) (by decide)⟩

/-- Counterexample to C9 as stated: the bare token `"globex"` yields the
display name `"globex"`, which is not title-cased; and the token
`"httponly.net"` is fetched verbatim — its URL starts with neither
`"https://"` nor `"http://"`, i.e. it has no scheme. -/
theorem resolved_target_invariant_cex :
    companyNameOf "globex" = "globex" ∧
    pyTitle "globex" ≠ "globex" ∧
    urlOf "httponly.net" = "httponly.net" ∧
    pyStartsWith "httponly.net" "https://" = false ∧
    pyStartsWith "httponly.net" "http://" = false :=
  ⟨by decide, by decide, by decide, by decide, by decide⟩

/-- C2 (amended): `generate_pitch` never raises (its embedding is total,
with every exception of the Python `try` surfacing as `ApiResponse.exn`
or a failed candidate extraction), and when neither backend attempt
succeeds it returns a non-empty deterministic error string — either
`"Connection Error: ..."` or `"Error from Google: <status> - <body>"` —
which interpolates the failure details, not a hand-authored template
with the target's name. -/
theorem generate_pitch_double_failure
    (flash pro : String → ApiResponse) (name : String) (data : ScrapeData)
    (hf : ∀ q, isApiSuccess (flash q) = false)
    (hp : ∀ q, isApiSuccess (pro q) = false) :
    generate_pitch flash pro name data ≠ "" ∧
    ((∃ t, generate_pitch flash pro name data = "Connection Error: " ++ t) ∨
     (∃ t, generate_pitch flash pro name data = "Error from Google: " ++ t)) := by
  have hne1 : ∀ t : String, "Connection Error: " ++ t ≠ "" :=
    fun t => string_append_ne_empty "Connection Error: " t (by decide)
  have hne2 : ∀ t : String, "Error from Google: " ++ t ≠ "" :=
    fun t => string_append_ne_empty "Error from Google: " t (by decide)
  cases hfl : flash (buildPrompt name data) with
  | exn m =>
    have hg : generate_pitch flash pro name data = "Connection Error: " ++ m := by
      simp [generate_pitch, hfl]
    exact ⟨hg ▸ hne1 m, Or.inl ⟨m, hg⟩⟩
  | resp s b cand =>
    by_cases hs : s = 200
    · subst hs
      cases cand with
      | ok t =>
        have hcontra := hf (buildPrompt name data)
        rw [hfl] at hcontra
        simp [isApiSuccess] at hcontra
      | error m =>
        have hg : generate_pitch flash pro name data = "Connection Error: " ++ m := by
          simp [generate_pitch, hfl]
        exact ⟨hg ▸ hne1 m, Or.inl ⟨m, hg⟩⟩
    · cases hpr : pro (buildPrompt name data) with
      | exn m =>
        have hg : generate_pitch flash pro name data = "Connection Error: " ++ m := by
          simp [generate_pitch, hfl, hs, hpr]
        exact ⟨hg ▸ hne1 m, Or.inl ⟨m, hg⟩⟩
      | resp s2 b2 cand2 =>
        by_cases hs2 : s2 = 200
        · subst hs2
          cases cand2 with
          | ok t =>
            have hcontra := hp (buildPrompt name data)
            rw [hpr] at hcontra
            simp [isApiSuccess] at hcontra
          | error m =>
            have hg : generate_pitch flash pro name data = "Connection Error: " ++ m := by
              simp [generate_pitch, hfl, hs, hpr]
            exact ⟨hg ▸ hne1 m, Or.inl ⟨m, hg⟩⟩
        · have hg : generate_pitch flash pro name data =
              "Error from Google: " ++ (toString s2 ++ (" - " ++ b2)) := by
            simp [generate_pitch, hfl, hs, hpr, hs2, String.append_assoc]
          exact ⟨hg ▸ hne2 _, Or.inr ⟨toString s2 ++ (" - " ++ b2), hg⟩⟩

/-- Witness for the amended C2: both backends raising. -/
theorem generate_pitch_double_failure_witness :
    generate_pitch apiDown apiDown "Acme" ⟨"", "", "Not Found", "Name_Only"⟩ ≠ "" ∧
    ((∃ t, generate_pitch apiDown apiDown "Acme" ⟨"", "", "Not Found", "Name_Only"⟩ =
        "Connection Error: " ++ t) ∨
     (∃ t, generate_pitch apiDown apiDown "Acme" ⟨"", "", "Not Found", "Name_Only"⟩ =
        "Error from Google: " ++ t)) :=
  generate_pitch_double_failure apiDown apiDown "Acme" ⟨"", "", "Not Found", "Name_Only"⟩
    (fun _ => rfl) (fun _ => rfl)

/-- Counterexample to C2 as stated: with both backend attempts failing
(500/quota), the returned fallback is the error string
`"Error from Google: 500 - quota"` — not a template interpolating the
target's name — and it does not contain the display name `"Globex"`. -/
theorem generate_pitch_template_lacks_name_cex :
    generate_pitch apiQuota apiQuota "Globex" ⟨"", "", "Not Found", "Name_Only"⟩ =
      "Error from Google: 500 - quota" ∧
    pyContains "Error from Google: 500 - quota" "Globex" = false ∧
    pyContains "Error from Google: 500 - quota" "globex" = false :=
  ⟨by decide, by decide, by decide⟩

theorem validSetEnum_nil (so : List String → List String) (hso : validSetEnum so)
    (l : List String) (h : l = []) : so l = [] := by
  subst h
  rcases hso [] with ⟨_, hmem⟩
  apply List.eq_nil_iff_forall_not_mem.mpr
  intro a ha
  exact (List.not_mem_nil a) ((hmem a).mp ha)

/-- C7 (amended): on the scraped path, `contact_email` is the sentinel
`"Not Found"` when the text has no email match, and otherwise is *some
member* of the match list — but, because `list(set(...))` destroys scan
order, not necessarily the first match in scan order (see the
counterexample). -/
theorem scraped_contact_membership
    (so : List String → List String) (fetch : String → FetchResult) (token : String)
    (hso : validSetEnum so)
    (h1 : token.toList.contains '.' = true)
    (h2 : token.toList.contains ' ' = false)
    (s : Nat) (b : String)
    (hf : fetch (urlOf token) = .ok s b)
    (hs : ¬(s = 403 ∨ s = 401 ∨ s = 503)) :
    (findallEmails (pyTrunc (getText b) 4000) = [] →
      (scrape_website so fetch token).contact_email = "Not Found") ∧
    (findallEmails (pyTrunc (getText b) 4000) ≠ [] →
      (scrape_website so fetch token).contact_email ∈
        findallEmails (pyTrunc (getText b) 4000)) := by
  have h1' : '.' ∈ token.data := by simpa using h1
  have h2' : ' ' ∉ token.data := by simpa using h2
  have hrec : (scrape_website so fetch token).contact_email =
      (so (findallEmails (pyTrunc (getText b) 4000))).headD "Not Found" := by
    simp [scrape_website, hf, hs, h1', h2', extract_emails]
  constructor
  · intro hnil
    rw [hrec, validSetEnum_nil so hso _ hnil]
    rfl
  · intro hne
    rcases hso (findallEmails (pyTrunc (getText b) 4000)) with ⟨_, hmem⟩
    cases hso2 : so (findallEmails (pyTrunc (getText b) 4000)) with
    | nil =>
      exfalso
      obtain ⟨a, ha⟩ := List.exists_mem_of_ne_nil _ hne
      exact (List.not_mem_nil a) (hso2 ▸ (hmem a).mpr ha)
    | cons y ys =>
      rw [hrec, hso2]
      exact (hmem y).mp (hso2 ▸ List.mem_cons_self y ys)

/-- Witness for the amended C7: the scraped contact is a member of the
match list of the fetched page. -/
theorem scraped_contact_membership_witness :
    (scrape_website pySetList fetchOkContact "ex.com").contact_email ∈
      findallEmails (pyTrunc (getText "<p>Contact hi@example.com</p>") 4000) :=
  (scraped_contact_membership pySetList fetchOkContact "ex.com" pySetList_valid
    (by decide) (by decide) 200 "<p>Contact hi@example.com</p>" rfl (by decide)).2
    (by decide)

/-- Counterexample to C7 as stated: the page's matches in scan order are
`["a@x.com", "b@y.org"]`, yet under the admissible set enumeration
`pySetListRev` (Python's `list(set(...))` order is unspecified), the
selected `contact_email` is `"b@y.org"`, not the scan-order-first
`"a@x.com"`. -/
theorem contact_not_scan_order_first_cex :
    findallEmails (pyTrunc (getText "<p>Reach a@x.com or b@y.org</p>") 4000) =
      ["a@x.com", "b@y.org"] ∧
    pySetListRev ["a@x.com", "b@y.org"] = ["b@y.org", "a@x.com"] ∧
    (scrape_website pySetListRev fetchTwoEmails "ex.com").contact_email = "b@y.org" ∧
    ("b@y.org" : String) ≠ "a@x.com" :=
  ⟨by decide, by decide, by decide, by decide⟩

/-- C10: `contact_email` differs from the sentinel `"Not Found"` only
when the source is `"Scraped"` and the scraped text has at least one
email match; every non-`Scraped` result (`Name_Only`, `Protected_Site`,
`Error_Fallback`) carries exactly the sentinel and an empty `emails`
field. -/
theorem contact_sentinel_invariant
    (so : List String → List String) (fetch : String → FetchResult) (token : String)
    (hso : validSetEnum so) :
    ((scrape_website so fetch token).contact_email ≠ "Not Found" →
      (scrape_website so fetch token).source = "Scraped" ∧
      findallEmails ((scrape_website so fetch token).text) ≠ []) ∧
    ((scrape_website so fetch token).source ≠ "Scraped" →
      (scrape_website so fetch token).contact_email = "Not Found" ∧
      (scrape_website so fetch token).emails = "") := by
  by_cases hname : (!(token.toList.contains '.') || token.toList.contains ' ') = true
  · have hrec : scrape_website so fetch token =
        { text := "User provided Company Name: '" ++ token ++
            "'. No URL provided. Use your internal knowledge."
          emails := ""
          contact_email := "Not Found"
          source := "Name_Only" } := by
      rw [scrape_website, if_pos hname]
    rw [hrec]
    exact ⟨fun hc => absurd rfl hc, fun _ => ⟨rfl, rfl⟩⟩
  · have hname' : (!(token.toList.contains '.') || token.toList.contains ' ') = false := by
      simpa using hname
    cases hfe : fetch (urlOf token) with
    | err e =>
      have hrec : scrape_website so fetch token =
          { text := "Could not access " ++ urlOf token ++ ". Error: " ++ e
            emails := ""
            contact_email := "Not Found"
            source := "Error_Fallback" } := by
        rw [scrape_website, if_neg (by simpa using hname')]
        simp [hfe]
      rw [hrec]
      exact ⟨fun hc => absurd rfl hc, fun _ => ⟨rfl, rfl⟩⟩
    | ok s b =>
      by_cases hs : s = 403 ∨ s = 401 ∨ s = 503
      · have hrec : scrape_website so fetch token =
            { text := "Website " ++ urlOf token ++
                " is protected. Use internal knowledge for this domain."
              emails := ""
              contact_email := "Not Found"
              source := "Protected_Site" } := by
          rw [scrape_website, if_neg (by simpa using hname')]
          simp [hfe, hs]
        rw [hrec]
        exact ⟨fun hc => absurd rfl hc, fun _ => ⟨rfl, rfl⟩⟩
      · have hrec : scrape_website so fetch token =
            { text := pyTrunc (getText b) 4000
              emails := pyJoin ", " (so (findallEmails (pyTrunc (getText b) 4000)))
              contact_email := (so (findallEmails (pyTrunc (getText b) 4000))).headD "Not Found"
              source := "Scraped" } := by
          rw [scrape_website, if_neg (by simpa using hname')]
          simp [hfe, hs, extract_emails]
        rw [hrec]
        constructor
        · intro hc
          refine ⟨rfl, fun hnil => ?_⟩
          rw [validSetEnum_nil so hso _ hnil] at hc
          exact hc rfl
        · intro hns
          exact absurd rfl hns

/-- Witness for C10: a scraped page with an email gives a non-sentinel
contact, a `Scraped` source and a non-empty match list. -/
theorem contact_sentinel_invariant_witness :
    (scrape_website pySetList fetchOkContact "ex.com").source = "Scraped" ∧
    findallEmails ((scrape_website pySetList fetchOkContact "ex.com").text) ≠ [] :=
  (contact_sentinel_invariant pySetList fetchOkContact "ex.com" pySetList_valid).1
    (by decide)

theorem segsGo_text_chunk : ∀ (cs : List Char), '<' ∉ cs → ∀ ds acc,
    segsGo false (cs ++ ds) acc = segsGo false ds (cs.reverse ++ acc) := by
  intro cs
  induction cs with
  | nil => intro _ ds acc; simp
  | cons c cs' ih =>
    intro h ds acc
    have hc' : (c == '<') = false := by
      have hne : c ≠ '<' := fun hh => h (hh ▸ List.mem_cons_self c cs')
      simpa using hne
    have hmem : '<' ∉ cs' := fun hh => h (List.mem_cons_of_mem c hh)
    simp only [List.cons_append, segsGo, hc', Bool.false_eq_true, if_false, List.append_eq]
    rw [ih hmem ds (c :: acc)]
    simp [List.append_assoc]

theorem segsGo_inTag_chunk : ∀ (cs : List Char), '>' ∉ cs → ∀ ds acc,
    segsGo true (cs ++ '>' :: ds) acc = segsGo false ds [] := by
  intro cs
  induction cs with
  | nil =>
    intro _ ds acc
    simp [segsGo]
  | cons c cs' ih =>
    intro h ds acc
    have hc' : (c == '>') = false := by
      have hne : c ≠ '>' := fun hh => h (hh ▸ List.mem_cons_self c cs')
      simpa using hne
    simp only [List.cons_append, segsGo, hc', Bool.false_eq_true, if_false, List.append_eq]
    exact ih (fun hh => h (List.mem_cons_of_mem c hh)) ds acc

theorem getText_nav (w : String) (h1 : '<' ∉ w.toList) (h2 : pyStrip w = w) (h3 : w ≠ "") :
    getText ("<nav>" ++ w ++ "</nav>") = w := by
  have hb : ("<nav>" ++ w ++ "</nav>").toList =
      '<' :: 'n' :: 'a' :: 'v' :: '>' ::
        (w.toList ++ ('<' :: '/' :: 'n' :: 'a' :: 'v' :: '>' :: [])) := by
    have e1 : ("<nav>" ++ w ++ "</nav>").toList = ("<nav>" ++ w).toList ++ "</nav>".toList :=
      String.data_append _ _
    have e2 : ("<nav>" ++ w).toList = "<nav>".toList ++ w.toList := String.data_append _ _
    rw [e1, e2, List.append_assoc]
    rfl
  have hsegs : segsGo false ("<nav>" ++ w ++ "</nav>").toList [] = ["", w, ""] := by
    rw [hb]
    have step1 : segsGo false
        ('<' :: 'n' :: 'a' :: 'v' :: '>' ::
          (w.toList ++ ('<' :: '/' :: 'n' :: 'a' :: 'v' :: '>' :: []))) [] =
        "" :: segsGo false (w.toList ++ ('<' :: '/' :: 'n' :: 'a' :: 'v' :: '>' :: [])) [] := by
      simp [segsGo]
    rw [step1, segsGo_text_chunk w.toList h1 _ []]
    simp [segsGo]
  unfold getText
  rw [hsegs]
  have hws : pyStrip "" = "" := rfl
  simp only [List.map_cons, List.map_nil, hws, h2]
  have hwne : (w == "") = false := by simpa using h3
  simp [hwne, pyJoin]

/-- C8 (amended): when a 2xx fetch returns HTML, the visible text fed to
extraction and to the prompt strips the markup but does *not* discard the
content of non-content elements: the text inside a `<nav>` element is
retained verbatim (here it *is* the whole visible text of a page whose
only text sits inside `<nav>`). -/
theorem scrape_text_retains_nav
    (so : List String → List String) (fetch : String → FetchResult) (token w : String)
    (h1 : token.toList.contains '.' = true)
    (h2 : token.toList.contains ' ' = false)
    (hw1 : '<' ∉ w.toList)
    (hw2 : pyStrip w = w)
    (hw3 : w ≠ "")
    (hw4 : w.length ≤ 4000)
    (hf : fetch (urlOf token) = .ok 200 ("<nav>" ++ w ++ "</nav>")) :
    (scrape_website so fetch token).text = w := by
  have h1' : '.' ∈ token.data := by simpa using h1
  have h2' : ' ' ∉ token.data := by simpa using h2
  have hst : ¬((200 : Nat) = 403 ∨ (200 : Nat) = 401 ∨ (200 : Nat) = 503) := by decide
  have htext : (scrape_website so fetch token).text =
      pyTrunc (getText ("<nav>" ++ w ++ "</nav>")) 4000 := by
    simp [scrape_website, hf, hst, h1', h2']
  rw [htext, getText_nav w hw1 hw2 hw3]
  unfold pyTrunc
  rw [List.take_of_length_le (by exact hw4)]
  rfl

/-- Witness for the amended C8: a page that is a lone `<nav>Home</nav>`
yields visible text `"Home"` — the nav content, not the empty string. -/
theorem scrape_text_retains_nav_witness :
    (scrape_website pySetList fetchNavOnly "ex.com").text = "Home" :=
  scrape_text_retains_nav pySetList fetchNavOnly "ex.com" "Home"
    (by decide) (by decide) (by decide) (by decide) (by decide) (by decide) (by decide)

/-- Counterexample to C8 as stated: for a body with a `<nav>` element,
the visible text — and the generator prompt built from it — contains the
`<nav>` content `"Home"`, which the claim requires to be excluded. -/
theorem visible_text_includes_nav_cex :
    (scrape_website pySetList fetchNav "example.com").text =
      "Home Contact us at hi@example.com" ∧
    pyContains ((scrape_website pySetList fetchNav "example.com").text) "Home" = true ∧
    pyContains (buildPrompt "Example" (scrape_website pySetList fetchNav "example.com"))
      "Home" = true :=
  ⟨by decide, by decide, by decide⟩
